import Mathlib

/-!
Verification of the go-420coin contract-execution core: gas ("smoke")
metering, the state-transition pre-checks, and the jump-table builders.
Definitions are shallow embeddings of the Go source; machine integers
(uint64) are modelled as Nat with explicit wrap or guard conditions
exactly where the source can overflow.
-/

set_option maxHeartbeats 2000000
set_option maxRecDepth 100000

namespace Spec2Proof

/-- MaxUint64, the largest value of a Go uint64. -/
def U64MAX : Nat := 2 ^ 64 - 1

/-- Wrapping uint64 subtraction, as performed by the Go `-` operator on
uint64 operands a and b that are both below 2^64. -/
def sub64 (a b : Nat) : Nat := if b ≤ a then a - b else a + 2 ^ 64 - b

/-- Error values used by the gas-metering and state-transition code
(from core/errors and core/vm errors; the variants carry no payload). -/
inductive SmokeErr where
  | smokeUintOverflow
  | smokeLimitReached
  | intrinsicSmoke
  | insufficientFunds
  | insufficientFundsForTransfer
  | nonceTooHigh
  | nonceTooLow
  | sentryReentrancy
  deriving DecidableEq, Repr

/-! ## Constants from src/params/protocol_params.go -/

def TxSmoke : Nat := 21000
def TxSmokeContractCreation : Nat := 53000
def TxDataZeroSmoke : Nat := 4
def TxDataNonZeroSmokeFrontier : Nat := 68
def TxDataNonZeroSmokeEIP2028 : Nat := 16
def QuadCoeffDiv : Nat := 512
def MemorySmoke : Nat := 3
def SstoreSetSmoke : Nat := 20000
def SstoreResetSmoke : Nat := 5000
def SstoreClearSmoke : Nat := 5000
def SstoreRefundSmoke : Nat := 15000
def NetSstoreNoopSmoke : Nat := 200
def NetSstoreInitSmoke : Nat := 20000
def NetSstoreCleanSmoke : Nat := 5000
def NetSstoreDirtySmoke : Nat := 200
def NetSstoreClearRefund : Nat := 15000
def NetSstoreResetRefund : Nat := 4800
def NetSstoreResetClearRefund : Nat := 19800
def SstoreSentrySmokeEIP2200 : Nat := 2300
def SstoreNoopSmokeEIP2200 : Nat := 800
def SstoreDirtySmokeEIP2200 : Nat := 800
def SstoreInitSmokeEIP2200 : Nat := 20000
def SstoreInitRefundEIP2200 : Nat := 19200
def SstoreCleanSmokeEIP2200 : Nat := 5000
def SstoreCleanRefundEIP2200 : Nat := 4200
def SstoreClearRefundEIP2200 : Nat := 15000
def SloadSmokeEIP2200 : Nat := 800

/-- Modelled from the spec: params.SstoreSetSmokeEIP2200 is not in the
params file under src/; the smokeSStoreEIP2200 comment fixes it at
20000 (SSTORE_SET_SMOKE, 20K). -/
def SstoreSetSmokeEIP2200 : Nat := 20000

/-- Modelled from the spec: params.SstoreResetSmokeEIP2200 is not in
the params file under src/; the EIP-2200 schedule in the source comment
fixes SSTORE_RESET_SMOKE at 5000. -/
def SstoreResetSmokeEIP2200 : Nat := 5000

/-- Modelled from the spec: params.SstoreClearsScheduleRefundEIP2200 is
not in the params file under src/; the EIP-2200 schedule fixes
SSTORE_CLEARS_SCHEDULE at 15000. -/
def SstoreClearsScheduleRefundEIP2200 : Nat := 15000

/-! ## SmokePool (src/unnamed/part_004)

The pool is a single uint64 counter.  `AddSmoke` panics on overflow
(modelled as `none`); `SubSmoke` reports an error value and leaves the
pool untouched when the amount exceeds the pool.  Both results carry the
resulting pool value so that the no-mutation-on-failure behaviour is
visible in the embedding. -/

/-- AddSmoke makes smoke available for execution; on uint64 overflow the
source panics, modelled here as `none`. -/
def AddSmoke (gp amount : Nat) : Option Nat :=
  if gp > U64MAX - amount then none else some (gp + amount)

/-- SubSmoke deducts the given amount from the pool if enough smoke is
available and returns an error otherwise; the pair carries the error (if
any) and the pool value after the call. -/
def SubSmoke (gp amount : Nat) : Option SmokeErr × Nat :=
  if gp < amount then (some .smokeLimitReached, gp) else (none, gp - amount)

/-! ## IntrinsicSmoke (src/unnamed/part_005)

Transaction data is modelled as the list of its bytes. -/

/-- IntrinsicSmoke computes the intrinsic smoke for a message with the
given data, exactly as the source: base cost, then the non-zero-byte
term with an exact uint64-overflow guard, then the zero-byte term with
the same guard. -/
def IntrinsicSmoke (data : List Nat) (contractCreation isHomestead isEIP2028 : Bool) :
    Except SmokeErr Nat :=
  let smoke := if contractCreation && isHomestead then TxSmokeContractCreation else TxSmoke
  if data.length > 0 then
    let nz := (data.filter (fun b => b ≠ 0)).length
    let nonZeroSmoke := if isEIP2028 then TxDataNonZeroSmokeEIP2028 else TxDataNonZeroSmokeFrontier
    if (U64MAX - smoke) / nonZeroSmoke < nz then .error .smokeUintOverflow
    else
      let smoke := smoke + nz * nonZeroSmoke
      let z := data.length - nz
      if (U64MAX - smoke) / TxDataZeroSmoke < z then .error .smokeUintOverflow
      else .ok (smoke + z * TxDataZeroSmoke)
  else .ok smoke

/-! ## callSmoke (src/core/vm/gas.go)

The requested call cost is a uint256, modelled as a Nat together with
the `IsUint64` test `callCost < 2^64`.  The uint64 subtraction
`availableSmoke - base` in the source can wrap, hence `sub64`. -/

/-- callSmoke returns the actual smoke cost of a call: under EIP-150 the
forwarded smoke is capped at avail - avail/64 (avail being the available
smoke after the base cost is deducted), and the cap is used whenever the
requested cost is not a uint64 or exceeds the cap. -/
def callSmoke (isEip150 : Bool) (availableSmoke base callCost : Nat) :
    Except SmokeErr Nat :=
  if isEip150 then
    let avail := sub64 availableSmoke base
    let smoke := avail - avail / 64
    if ¬ callCost < 2 ^ 64 ∨ smoke < callCost then .ok smoke
    else .ok callCost
  else if ¬ callCost < 2 ^ 64 then .error .smokeUintOverflow
  else .ok callCost

/-! ## Memory expansion cost (src/core/vm/smoke_table.go, memorySmokeCost) -/

/-- Modelled from the spec: toWordSize rounds a requested byte size up
to a whole count of 32-byte words (the source helper toWordSize is not
under src/; the spec states memory grows in 32-byte words and that the
requested size is rounded up to a whole word count). -/
def toWordSize (size : Nat) : Nat := (size + 31) / 32

/-- Modelled from the spec: the Memory byte buffer only grows, is
padded to whole 32-byte words, and tracks the smoke already charged for
its current size in lastSmokeCost (the Memory struct itself is not
under src/). `len` is the current buffer length in bytes. -/
structure Memory where
  len : Nat
  lastSmokeCost : Nat
  deriving DecidableEq, Repr

/-- memorySmokeCost calculates the quadratic smoke for memory expansion,
charging only for the region that is expanded.  The guard at
0x1FFFFFFFE0 makes every subsequent uint64 operation overflow-free
(as the source comment states), so plain Nat arithmetic below the guard
is exact; the fee subtraction uses the wrapping `sub64` as in Go.
Returns the fee and the Memory with its updated lastSmokeCost. -/
def memorySmokeCost (mem : Memory) (newMemSize : Nat) : Except SmokeErr (Nat × Memory) :=
  if newMemSize = 0 then .ok (0, mem)
  else if newMemSize > 0x1FFFFFFFE0 then .error .smokeUintOverflow
  else
    let newMemSizeWords := toWordSize newMemSize
    let newMemSize := newMemSizeWords * 32
    if newMemSize > mem.len then
      let square := newMemSizeWords * newMemSizeWords
      let linCoef := newMemSizeWords * MemorySmoke
      let quadCoef := square / QuadCoeffDiv
      let newTotalFee := linCoef + quadCoef
      let fee := sub64 newTotalFee mem.lastSmokeCost
      .ok (fee, { mem with lastSmokeCost := newTotalFee })
    else .ok (0, mem)

/-- memCost is the total memory fee at a given word count w,
3*w + w*w/512, the quantity the source calls newTotalFee. -/
def memCost (w : Nat) : Nat := w * MemorySmoke + w * w / QuadCoeffDiv

/-- Modelled from the spec: one successful expansion step charges via
memorySmokeCost and then grows the buffer to the word-padded size if
larger (the Memory.Resize helper of the interpreter is not under src/; the spec
states memory only grows, padded to whole words, and growth is charged
before the buffer is resized). -/
def expandStep (mem : Memory) (size : Nat) : Except SmokeErr (Nat × Memory) :=
  match memorySmokeCost mem size with
  | .error e => .error e
  | .ok (fee, m) => .ok (fee, { m with len := max m.len (toWordSize size * 32) })

/-- runExpansions performs a sequence of expansion requests within one
call frame, accumulating the total fee charged. -/
def runExpansions (mem : Memory) : List Nat → Except SmokeErr (Nat × Memory)
  | [] => .ok (0, mem)
  | s :: rest =>
    match expandStep mem s with
    | .error e => .error e
    | .ok (fee, m) =>
      match runExpansions m rest with
      | .error e => .error e
      | .ok (total, m') => .ok (fee + total, m')

/-! ## SSTORE cost regimes (src/core/vm/smoke_table.go) -/

/-- smokeSStore computes SSTORE smoke from the current value, the
committed (original) value and the new value of the slot, mutating the
refund counter.  Hash values are modelled as Nat, the empty hash being
0.  The result pairs the charged smoke with the refund counter after
the call.  SubRefund on the refund counter is modelled from the spec
(refund counter add/sub) as Nat subtraction; the branch using it is
documented in the source as never driving the counter below zero. -/
def smokeSStore (isPetersburg isConstantinople : Bool)
    (current original value refund : Nat) : Nat × Nat :=
  if isPetersburg || !isConstantinople then
    if current = 0 ∧ value ≠ 0 then (SstoreSetSmoke, refund)
    else if current ≠ 0 ∧ value = 0 then (SstoreClearSmoke, refund + SstoreRefundSmoke)
    else (SstoreResetSmoke, refund)
  else
    if current = value then (NetSstoreNoopSmoke, refund)
    else if original = current then
      if original = 0 then (NetSstoreInitSmoke, refund)
      else if value = 0 then (NetSstoreCleanSmoke, refund + NetSstoreClearRefund)
      else (NetSstoreCleanSmoke, refund)
    else
      let refund := if original ≠ 0 then
        if current = 0 then refund - NetSstoreClearRefund
        else if value = 0 then refund + NetSstoreClearRefund
        else refund
      else refund
      let refund := if original = value then
        if original = 0 then refund + NetSstoreResetClearRefund
        else refund + NetSstoreResetRefund
      else refund
      (NetSstoreDirtySmoke, refund)

/-- Storage access for one contract during one SSTORE charge: current
state, committed state (both keyed by the slot key) and the refund
counter. -/
structure SStoreDB where
  getState : Nat → Nat
  getCommittedState : Nat → Nat
  refund : Nat

/-- smokeSStoreEIP2200 implements the EIP-2200 SSTORE smoke function:
if the remaining smoke of the executing contract is at or below the
2300 sentry the operation fails before touching storage or the refund
counter; otherwise smoke and refunds follow the net-metering schedule.
The state is passed and returned explicitly so that the no-mutation
behaviour of the failure branch is visible. -/
def smokeSStoreEIP2200 (contractSmoke : Nat) (st : SStoreDB) (key value : Nat) :
    Except SmokeErr Nat × SStoreDB :=
  if contractSmoke ≤ SstoreSentrySmokeEIP2200 then (.error .sentryReentrancy, st)
  else
    let current := st.getState key
    if current = value then (.ok SloadSmokeEIP2200, st)
    else
      let original := st.getCommittedState key
      if original = current then
        if original = 0 then (.ok SstoreSetSmokeEIP2200, st)
        else if value = 0 then
          (.ok SstoreResetSmokeEIP2200,
           { st with refund := st.refund + SstoreClearsScheduleRefundEIP2200 })
        else (.ok SstoreResetSmokeEIP2200, st)
      else
        let r := if original ≠ 0 then
          if current = 0 then st.refund - SstoreClearsScheduleRefundEIP2200
          else if value = 0 then st.refund + SstoreClearsScheduleRefundEIP2200
          else st.refund
        else st.refund
        let r := if original = value then
          if original = 0 then r + (SstoreSetSmokeEIP2200 - SloadSmokeEIP2200)
          else r + (SstoreResetSmokeEIP2200 - SloadSmokeEIP2200)
        else r
        (.ok SloadSmokeEIP2200, { st with refund := r })

/-! ## State transition (src/unnamed/part_005)

Only the account of the sender and the block pool matter to the
claims, so the world is modelled by the balance and nonce of the
sender, the block smoke pool and the refund counter. Balances are
big.Int in the source, hence plain Nat with no wrap. -/

/-- Message fields used by the state transition; `toIsNil` models a nil
recipient (contract creation). -/
structure Msg where
  checkNonce : Bool
  nonce : Nat
  smoke : Nat
  smokePrice : Nat
  value : Nat
  data : List Nat
  toIsNil : Bool
  deriving DecidableEq, Repr

/-- World state visible to the transition pre-checks: sender balance,
sender nonce, block smoke pool, refund counter. -/
structure World where
  balance : Nat
  nonce : Nat
  pool : Nat
  refund : Nat
  deriving DecidableEq, Repr

/-- buySmoke checks the sender balance against smokeLimit*smokePrice,
reserves the smoke limit from the block pool, debits the balance and
initialises the transition smoke counters, in exactly the order of the
source. The result carries the world after the call, the remaining
smoke of the transition (st.smoke) and st.initialSmoke. -/
def buySmoke (msg : Msg) (w : World) : Except SmokeErr Unit × World × Nat × Nat :=
  let mgval := msg.smoke * msg.smokePrice
  if w.balance < mgval then (.error .insufficientFunds, w, 0, 0)
  else
    match SubSmoke w.pool msg.smoke with
    | (some e, _) => (.error e, w, 0, 0)
    | (none, pool') =>
      (.ok (), { w with pool := pool', balance := w.balance - mgval }, msg.smoke, msg.smoke)

/-- preCheck verifies the nonce when the message requests it, then buys
smoke. -/
def preCheck (msg : Msg) (w : World) : Except SmokeErr Unit × World × Nat × Nat :=
  if msg.checkNonce then
    if w.nonce < msg.nonce then (.error .nonceTooHigh, w, 0, 0)
    else if w.nonce > msg.nonce then (.error .nonceTooLow, w, 0, 0)
    else buySmoke msg w
  else buySmoke msg w

/-- Modelled from the spec: CanTransfer holds when the sender balance
covers the transferred value (the Context.CanTransfer function is not
under src/; the spec states the sender must be able to cover the value
at the top level). -/
def CanTransfer (balance value : Nat) : Bool := value ≤ balance

/-- transitionDbPre is TransitionDb up to (and excluding) the dispatch
into Create/Call: the pre-check (nonce, balance for smoke, pool), the
intrinsic-smoke computation and deduction, and the balance-for-value
check.  On error it returns the world exactly as it stands at the
moment the source returns (nil result, non-nil error); from the
dispatch on, the source always returns a non-nil result and a nil
error, so every nil-result error of TransitionDb is produced here.  On
success it returns the world, the remaining smoke and initialSmoke with
which the dispatch would proceed. -/
def transitionDbPre (homestead istanbul : Bool) (msg : Msg) (w : World) :
    Except SmokeErr Unit × World × Nat × Nat :=
  match preCheck msg w with
  | (.error e, w', s, i) => (.error e, w', s, i)
  | (.ok (), w1, stSmoke, initialSmoke) =>
    let contractCreation := msg.toIsNil
    match IntrinsicSmoke msg.data contractCreation homestead istanbul with
    | .error e => (.error e, w1, stSmoke, initialSmoke)
    | .ok smoke =>
      if stSmoke < smoke then (.error .intrinsicSmoke, w1, stSmoke, initialSmoke)
      else
        let stSmoke := stSmoke - smoke
        if 0 < msg.value && !(CanTransfer w1.balance msg.value) then
          (.error .insufficientFundsForTransfer, w1, stSmoke, initialSmoke)
        else (.ok (), w1, stSmoke, initialSmoke)

/-- refundSmoke applies the refund counter capped to half of the used
smoke, credits the sender with the remaining smoke at the original
price and returns the remaining smoke to the block pool (whose AddSmoke
panics on uint64 overflow, hence the Option).  Arguments are
st.initialSmoke, st.smoke and the world; the result carries the new
st.smoke and the new world. -/
def refundSmoke (initialSmoke smoke smokePrice : Nat) (w : World) : Option (Nat × World) :=
  let used := initialSmoke - smoke
  let refund := used / 2
  let refund := if refund > w.refund then w.refund else refund
  let smoke := smoke + refund
  let remaining := smoke * smokePrice
  match AddSmoke w.pool smoke with
  | none => none
  | some pool' => some (smoke, { w with balance := w.balance + remaining, pool := pool' })

/-! ## Jump table (src/unnamed/part_003, src/core/vm/eips.go)

Go execution, dynamic-smoke and memory-size function values are
modelled as tags: two slots are byte-identical in the source exactly
when they hold the same function value, i.e. the same tag.  The Go
JumpTable is an array of 256 operation pointers; pointers are modelled
as indices into an explicit allocation heap so that in-place mutation
through a shared pointer is visible, and table values copy the
pointers, as Go array assignment does. -/

inductive ExecTag where
  | opStop | opAdd | opMul | opSub | opDiv | opSdiv | opMod | opSmod
  | opAddmod | opMulmod | opExp | opSignExtend
  | opLt | opGt | opSlt | opSgt | opEq | opIszero
  | opAnd | opXor | opOr | opNot | opByte | opSha3
  | opAddress | opBalance | opOrigin | opCaller | opCallValue
  | opCallDataLoad | opCallDataSize | opCallDataCopy
  | opCodeSize | opCodeCopy | opSmokeprice
  | opExtCodeSize | opExtCodeCopy | opBlockhash
  | opCoinbase | opTimestamp | opNumber | opDifficulty | opSmokeLimit
  | opPop | opMload | opMstore | opMstore8 | opSload | opSstore
  | opJump | opJumpi | opPc | opMsize | opSmoke | opJumpdest
  | opPush1 | makePush (size pushByteSize : Nat)
  | makeDup (n : Nat) | makeSwap (n : Nat) | makeLog (n : Nat)
  | opCreate | opCall | opCallCode | opReturn | opSuicide
  | opDelegateCall | opStaticCall | opReturnDataSize | opReturnDataCopy
  | opRevert | opSHL | opSHR | opSAR | opExtCodeHash | opCreate2
  | opChainID | opSelfBalance
  deriving BEq

inductive SmokeTag where
  | smokeCallDataCopy | smokeCodeCopy | smokeExtCodeCopy | smokeReturnDataCopy
  | smokeSStore | smokeSStoreEIP2200 | makeSmokeLog (n : Nat)
  | smokeSha3 | smokeReturn | smokeRevert | smokeMLoad | smokeMStore8
  | smokeMStore | smokeCreate | smokeCreate2
  | smokeExpFrontier | smokeExpEIP158
  | smokeCall | smokeCallCode | smokeDelegateCall | smokeStaticCall
  | smokeSelfdestruct
  deriving BEq

inductive MemTag where
  | memorySha3 | memoryCallDataCopy | memoryCodeCopy | memoryExtCodeCopy
  | memoryMLoad | memoryMStore8 | memoryMStore | memoryLog
  | memoryCreate | memoryCreate2 | memoryCall | memoryDelegateCall
  | memoryStaticCall | memoryReturn | memoryRevert | memoryReturnDataCopy
  deriving BEq

/-- Operation descriptor; omitted fields take the Go zero value, as in
the source struct literals. -/
structure Operation where
  execute : ExecTag
  constantSmoke : Nat := 0
  dynamicSmoke : Option SmokeTag := none
  minStack : Nat := 0
  maxStack : Nat := 0
  memorySize : Option MemTag := none
  halts : Bool := false
  jumps : Bool := false
  writes : Bool := false
  reverts : Bool := false
  returns : Bool := false
  deriving BEq

/-! Constants from src/core/vm/gas.go and src/params/protocol_params.go
used by the table builders. -/

def SmokeQuickStep : Nat := 2
def SmokeFastestStep : Nat := 3
def SmokeFastStep : Nat := 5
def SmokeMidStep : Nat := 8
def SmokeSlowStep : Nat := 10
def SmokeExtStep : Nat := 20
def Sha3Smoke : Nat := 30
def BalanceSmokeFrontier : Nat := 20
def ExtcodeSizeSmokeFrontier : Nat := 20
def ExtcodeCopyBaseFrontier : Nat := 20
def SloadSmokeFrontier : Nat := 50
def JumpdestSmoke : Nat := 1
def CreateSmoke : Nat := 32000
def Create2Smoke : Nat := 32000
def CallSmokeFrontier : Nat := 40
def CallSmokeEIP150 : Nat := 700
def BalanceSmokeEIP150 : Nat := 400
def ExtcodeSizeSmokeEIP150 : Nat := 700
def SloadSmokeEIP150 : Nat := 200
def ExtcodeCopyBaseEIP150 : Nat := 700
def ExtcodeHashSmokeConstantinople : Nat := 400
def SloadSmokeEIP1884 : Nat := 800
def BalanceSmokeEIP1884 : Nat := 700
def ExtcodeHashSmokeEIP1884 : Nat := 700
def StackLimit : Nat := 1024

/-- Modelled from the spec: minStack gives the stack occupancy an
operation popping `pops` and pushing `push` items requires (the
stack_table helpers are not under src/; the spec states every operation
verifies its minimum and maximum stack occupancy against the 1024
depth bound). -/
def minStack (pops _push : Nat) : Nat := pops

/-- Modelled from the spec: maxStack gives the largest stack depth at
which an operation popping `pops` and pushing `push` items still fits
the 1024 bound. -/
def maxStack (pops push : Nat) : Nat := StackLimit + pops - push

/-- Modelled from the spec: DUP n requires n items and pushes one. -/
def minDupStack (n : Nat) : Nat := minStack n (n + 1)

/-- Modelled from the spec: DUP n stack upper bound. -/
def maxDupStack (n : Nat) : Nat := maxStack n (n + 1)

/-- Modelled from the spec: SWAP reaching depth n needs n items. -/
def minSwapStack (n : Nat) : Nat := minStack n n

/-- Modelled from the spec: SWAP stack upper bound. -/
def maxSwapStack (n : Nat) : Nat := maxStack n n

/-- Allocation heap of operation descriptors; a Go operation pointer is
an index into it. -/
abbrev Heap := List Operation

/-- A jump table maps opcode bytes to operation pointers; modelled as
an association list whose most recent entry for a byte wins, matching
assignment to an array slot. -/
abbrev JumpTable := List (Nat × Nat)

/-- allocOp models Go taking the address of a fresh operation struct
literal. -/
def allocOp (h : Heap) (op : Operation) : Heap × Nat := (h ++ [op], h.length)

/-- setSlot models assigning a pointer into a table slot. -/
def setSlot (t : JumpTable) (b p : Nat) : JumpTable := (b, p) :: t

/-- lookupSlot reads the pointer stored in a table slot. -/
def lookupSlot (t : JumpTable) (b : Nat) : Option Nat := t.lookup b

/-- updateField models the Go statement jt[b].field = v, a write
through the pointer stored in slot b. -/
def updateField (h : Heap) (t : JumpTable) (b : Nat) (f : Operation → Operation) : Heap :=
  match lookupSlot t b with
  | some p =>
    match h.get? p with
    | some op => h.set p (f op)
    | none => h
  | none => h

/-- resolveOp dereferences the pointer in slot b of a table against a
heap, yielding the operation the slot denotes. -/
def resolveOp (h : Heap) (t : JumpTable) (b : Nat) : Option Operation :=
  (lookupSlot t b).bind h.get?

/-- Modelled from the spec: opcode byte values (the opcodes file is
not under src/; the spec states the table maps each of the 256 opcode
bytes, and the bytes are the standard EVM opcode numbering). -/
def STOP : Nat := 0
def ADD : Nat := 1
def MUL : Nat := 2
def SUB : Nat := 3
def DIV : Nat := 4
def SDIV : Nat := 5
def MOD : Nat := 6
def SMOD : Nat := 7
def ADDMOD : Nat := 8
def MULMOD : Nat := 9
def EXP : Nat := 10
def SIGNEXTEND : Nat := 11
def LT : Nat := 16
def GT : Nat := 17
def SLT : Nat := 18
def SGT : Nat := 19
def EQ : Nat := 20
def ISZERO : Nat := 21
def AND : Nat := 22
def OR : Nat := 23
def XOR : Nat := 24
def NOT : Nat := 25
def BYTE : Nat := 26
def SHL : Nat := 27
def SHR : Nat := 28
def SAR : Nat := 29
def SHA3 : Nat := 32
def ADDRESS : Nat := 48
def BALANCE : Nat := 49
def ORIGIN : Nat := 50
def CALLER : Nat := 51
def CALLVALUE : Nat := 52
def CALLDATALOAD : Nat := 53
def CALLDATASIZE : Nat := 54
def CALLDATACOPY : Nat := 55
def CODESIZE : Nat := 56
def CODECOPY : Nat := 57
def GASPRICE : Nat := 58
def EXTCODESIZE : Nat := 59
def EXTCODECOPY : Nat := 60
def RETURNDATASIZE : Nat := 61
def RETURNDATACOPY : Nat := 62
def EXTCODEHASH : Nat := 63
def BLOCKHASH : Nat := 64
def COINBASE : Nat := 65
def TIMESTAMP : Nat := 66
def NUMBER : Nat := 67
def DIFFICULTY : Nat := 68
def GASLIMIT : Nat := 69
def CHAINID : Nat := 70
def SELFBALANCE : Nat := 71
def POP : Nat := 80
def MLOAD : Nat := 81
def MSTORE : Nat := 82
def MSTORE8 : Nat := 83
def SLOAD : Nat := 84
def SSTORE : Nat := 85
def JUMP : Nat := 86
def JUMPI : Nat := 87
def PC : Nat := 88
def MSIZE : Nat := 89
def GAS : Nat := 90
def JUMPDEST : Nat := 91
def PUSH1 : Nat := 96
def PUSH2 : Nat := 97
def PUSH3 : Nat := 98
def PUSH4 : Nat := 99
def PUSH5 : Nat := 100
def PUSH6 : Nat := 101
def PUSH7 : Nat := 102
def PUSH8 : Nat := 103
def PUSH9 : Nat := 104
def PUSH10 : Nat := 105
def PUSH11 : Nat := 106
def PUSH12 : Nat := 107
def PUSH13 : Nat := 108
def PUSH14 : Nat := 109
def PUSH15 : Nat := 110
def PUSH16 : Nat := 111
def PUSH17 : Nat := 112
def PUSH18 : Nat := 113
def PUSH19 : Nat := 114
def PUSH20 : Nat := 115
def PUSH21 : Nat := 116
def PUSH22 : Nat := 117
def PUSH23 : Nat := 118
def PUSH24 : Nat := 119
def PUSH25 : Nat := 120
def PUSH26 : Nat := 121
def PUSH27 : Nat := 122
def PUSH28 : Nat := 123
def PUSH29 : Nat := 124
def PUSH30 : Nat := 125
def PUSH31 : Nat := 126
def PUSH32 : Nat := 127
def DUP1 : Nat := 128
def DUP2 : Nat := 129
def DUP3 : Nat := 130
def DUP4 : Nat := 131
def DUP5 : Nat := 132
def DUP6 : Nat := 133
def DUP7 : Nat := 134
def DUP8 : Nat := 135
def DUP9 : Nat := 136
def DUP10 : Nat := 137
def DUP11 : Nat := 138
def DUP12 : Nat := 139
def DUP13 : Nat := 140
def DUP14 : Nat := 141
def DUP15 : Nat := 142
def DUP16 : Nat := 143
def SWAP1 : Nat := 144
def SWAP2 : Nat := 145
def SWAP3 : Nat := 146
def SWAP4 : Nat := 147
def SWAP5 : Nat := 148
def SWAP6 : Nat := 149
def SWAP7 : Nat := 150
def SWAP8 : Nat := 151
def SWAP9 : Nat := 152
def SWAP10 : Nat := 153
def SWAP11 : Nat := 154
def SWAP12 : Nat := 155
def SWAP13 : Nat := 156
def SWAP14 : Nat := 157
def SWAP15 : Nat := 158
def SWAP16 : Nat := 159
def LOG0 : Nat := 160
def LOG1 : Nat := 161
def LOG2 : Nat := 162
def LOG3 : Nat := 163
def LOG4 : Nat := 164
def CREATE : Nat := 240
def CALL : Nat := 241
def CALLCODE : Nat := 242
def RETURN : Nat := 243
def DELEGATECALL : Nat := 244
def CREATE2 : Nat := 245
def STATICCALL : Nat := 250
def REVERT : Nat := 253
def SELFDESTRUCT : Nat := 255

/-- frontierEntriesA is a contiguous slice of the newFrontierInstructionSet literal, in source order. -/
def frontierEntriesA : List (Nat × Operation) := [
  (STOP, { execute := .opStop, constantSmoke := 0, minStack := minStack 0 0, maxStack := maxStack 0 0, halts := true }),
  (ADD, { execute := .opAdd, constantSmoke := SmokeFastestStep, minStack := minStack 2 1, maxStack := maxStack 2 1 }),
  (MUL, { execute := .opMul, constantSmoke := SmokeFastStep, minStack := minStack 2 1, maxStack := maxStack 2 1 }),
  (SUB, { execute := .opSub, constantSmoke := SmokeFastestStep, minStack := minStack 2 1, maxStack := maxStack 2 1 }),
  (DIV, { execute := .opDiv, constantSmoke := SmokeFastStep, minStack := minStack 2 1, maxStack := maxStack 2 1 }),
  (SDIV, { execute := .opSdiv, constantSmoke := SmokeFastStep, minStack := minStack 2 1, maxStack := maxStack 2 1 }),
  (MOD, { execute := .opMod, constantSmoke := SmokeFastStep, minStack := minStack 2 1, maxStack := maxStack 2 1 }),
  (SMOD, { execute := .opSmod, constantSmoke := SmokeFastStep, minStack := minStack 2 1, maxStack := maxStack 2 1 }),
  (ADDMOD, { execute := .opAddmod, constantSmoke := SmokeMidStep, minStack := minStack 3 1, maxStack := maxStack 3 1 }),
  (MULMOD, { execute := .opMulmod, constantSmoke := SmokeMidStep, minStack := minStack 3 1, maxStack := maxStack 3 1 }),
  (EXP, { execute := .opExp, dynamicSmoke := some .smokeExpFrontier, minStack := minStack 2 1, maxStack := maxStack 2 1 }),
  (SIGNEXTEND, { execute := .opSignExtend, constantSmoke := SmokeFastStep, minStack := minStack 2 1, maxStack := maxStack 2 1 }),
  (LT, { execute := .opLt, constantSmoke := SmokeFastestStep, minStack := minStack 2 1, maxStack := maxStack 2 1 }),
  (GT, { execute := .opGt, constantSmoke := SmokeFastestStep, minStack := minStack 2 1, maxStack := maxStack 2 1 }),
  (SLT, { execute := .opSlt, constantSmoke := SmokeFastestStep, minStack := minStack 2 1, maxStack := maxStack 2 1 }),
  (SGT, { execute := .opSgt, constantSmoke := SmokeFastestStep, minStack := minStack 2 1, maxStack := maxStack 2 1 }),
  (EQ, { execute := .opEq, constantSmoke := SmokeFastestStep, minStack := minStack 2 1, maxStack := maxStack 2 1 }),
  (ISZERO, { execute := .opIszero, constantSmoke := SmokeFastestStep, minStack := minStack 1 1, maxStack := maxStack 1 1 }),
  (AND, { execute := .opAnd, constantSmoke := SmokeFastestStep, minStack := minStack 2 1, maxStack := maxStack 2 1 }),
  (XOR, { execute := .opXor, constantSmoke := SmokeFastestStep, minStack := minStack 2 1, maxStack := maxStack 2 1 }),
  (OR, { execute := .opOr, constantSmoke := SmokeFastestStep, minStack := minStack 2 1, maxStack := maxStack 2 1 }),
  (NOT, { execute := .opNot, constantSmoke := SmokeFastestStep, minStack := minStack 1 1, maxStack := maxStack 1 1 }),
  (BYTE, { execute := .opByte, constantSmoke := SmokeFastestStep, minStack := minStack 2 1, maxStack := maxStack 2 1 }),
  (SHA3, { execute := .opSha3, constantSmoke := Sha3Smoke, dynamicSmoke := some .smokeSha3, minStack := minStack 2 1, maxStack := maxStack 2 1, memorySize := some .memorySha3 }),
  (ADDRESS, { execute := .opAddress, constantSmoke := SmokeQuickStep, minStack := minStack 0 1, maxStack := maxStack 0 1 }),
  (BALANCE, { execute := .opBalance, constantSmoke := BalanceSmokeFrontier, minStack := minStack 1 1, maxStack := maxStack 1 1 }),
  (ORIGIN, { execute := .opOrigin, constantSmoke := SmokeQuickStep, minStack := minStack 0 1, maxStack := maxStack 0 1 }),
  (CALLER, { execute := .opCaller, constantSmoke := SmokeQuickStep, minStack := minStack 0 1, maxStack := maxStack 0 1 }),
  (CALLVALUE, { execute := .opCallValue, constantSmoke := SmokeQuickStep, minStack := minStack 0 1, maxStack := maxStack 0 1 }),
  (CALLDATALOAD, { execute := .opCallDataLoad, constantSmoke := SmokeFastestStep, minStack := minStack 1 1, maxStack := maxStack 1 1 }),
  (CALLDATASIZE, { execute := .opCallDataSize, constantSmoke := SmokeQuickStep, minStack := minStack 0 1, maxStack := maxStack 0 1 }),
  (CALLDATACOPY, { execute := .opCallDataCopy, constantSmoke := SmokeFastestStep, dynamicSmoke := some .smokeCallDataCopy, minStack := minStack 3 0, maxStack := maxStack 3 0, memorySize := some .memoryCallDataCopy }),
  (CODESIZE, { execute := .opCodeSize, constantSmoke := SmokeQuickStep, minStack := minStack 0 1, maxStack := maxStack 0 1 })]

/-- frontierEntriesB is a contiguous slice of the newFrontierInstructionSet literal, in source order. -/
def frontierEntriesB : List (Nat × Operation) := [
  (CODECOPY, { execute := .opCodeCopy, constantSmoke := SmokeFastestStep, dynamicSmoke := some .smokeCodeCopy, minStack := minStack 3 0, maxStack := maxStack 3 0, memorySize := some .memoryCodeCopy }),
  (GASPRICE, { execute := .opSmokeprice, constantSmoke := SmokeQuickStep, minStack := minStack 0 1, maxStack := maxStack 0 1 }),
  (EXTCODESIZE, { execute := .opExtCodeSize, constantSmoke := ExtcodeSizeSmokeFrontier, minStack := minStack 1 1, maxStack := maxStack 1 1 }),
  (EXTCODECOPY, { execute := .opExtCodeCopy, constantSmoke := ExtcodeCopyBaseFrontier, dynamicSmoke := some .smokeExtCodeCopy, minStack := minStack 4 0, maxStack := maxStack 4 0, memorySize := some .memoryExtCodeCopy }),
  (BLOCKHASH, { execute := .opBlockhash, constantSmoke := SmokeExtStep, minStack := minStack 1 1, maxStack := maxStack 1 1 }),
  (COINBASE, { execute := .opCoinbase, constantSmoke := SmokeQuickStep, minStack := minStack 0 1, maxStack := maxStack 0 1 }),
  (TIMESTAMP, { execute := .opTimestamp, constantSmoke := SmokeQuickStep, minStack := minStack 0 1, maxStack := maxStack 0 1 }),
  (NUMBER, { execute := .opNumber, constantSmoke := SmokeQuickStep, minStack := minStack 0 1, maxStack := maxStack 0 1 }),
  (DIFFICULTY, { execute := .opDifficulty, constantSmoke := SmokeQuickStep, minStack := minStack 0 1, maxStack := maxStack 0 1 }),
  (GASLIMIT, { execute := .opSmokeLimit, constantSmoke := SmokeQuickStep, minStack := minStack 0 1, maxStack := maxStack 0 1 }),
  (POP, { execute := .opPop, constantSmoke := SmokeQuickStep, minStack := minStack 1 0, maxStack := maxStack 1 0 }),
  (MLOAD, { execute := .opMload, constantSmoke := SmokeFastestStep, dynamicSmoke := some .smokeMLoad, minStack := minStack 1 1, maxStack := maxStack 1 1, memorySize := some .memoryMLoad }),
  (MSTORE, { execute := .opMstore, constantSmoke := SmokeFastestStep, dynamicSmoke := some .smokeMStore, minStack := minStack 2 0, maxStack := maxStack 2 0, memorySize := some .memoryMStore }),
  (MSTORE8, { execute := .opMstore8, constantSmoke := SmokeFastestStep, dynamicSmoke := some .smokeMStore8, minStack := minStack 2 0, maxStack := maxStack 2 0, memorySize := some .memoryMStore8 }),
  (SLOAD, { execute := .opSload, constantSmoke := SloadSmokeFrontier, minStack := minStack 1 1, maxStack := maxStack 1 1 }),
  (SSTORE, { execute := .opSstore, dynamicSmoke := some .smokeSStore, minStack := minStack 2 0, maxStack := maxStack 2 0, writes := true }),
  (JUMP, { execute := .opJump, constantSmoke := SmokeMidStep, minStack := minStack 1 0, maxStack := maxStack 1 0, jumps := true }),
  (JUMPI, { execute := .opJumpi, constantSmoke := SmokeSlowStep, minStack := minStack 2 0, maxStack := maxStack 2 0, jumps := true }),
  (PC, { execute := .opPc, constantSmoke := SmokeQuickStep, minStack := minStack 0 1, maxStack := maxStack 0 1 }),
  (MSIZE, { execute := .opMsize, constantSmoke := SmokeQuickStep, minStack := minStack 0 1, maxStack := maxStack 0 1 }),
  (GAS, { execute := .opSmoke, constantSmoke := SmokeQuickStep, minStack := minStack 0 1, maxStack := maxStack 0 1 }),
  (JUMPDEST, { execute := .opJumpdest, constantSmoke := JumpdestSmoke, minStack := minStack 0 0, maxStack := maxStack 0 0 }),
  (PUSH1, { execute := .opPush1, constantSmoke := SmokeFastestStep, minStack := minStack 0 1, maxStack := maxStack 0 1 }),
  (PUSH2, { execute := .makePush 2 2, constantSmoke := SmokeFastestStep, minStack := minStack 0 1, maxStack := maxStack 0 1 }),
  (PUSH3, { execute := .makePush 3 3, constantSmoke := SmokeFastestStep, minStack := minStack 0 1, maxStack := maxStack 0 1 }),
  (PUSH4, { execute := .makePush 4 4, constantSmoke := SmokeFastestStep, minStack := minStack 0 1, maxStack := maxStack 0 1 }),
  (PUSH5, { execute := .makePush 5 5, constantSmoke := SmokeFastestStep, minStack := minStack 0 1, maxStack := maxStack 0 1 }),
  (PUSH6, { execute := .makePush 6 6, constantSmoke := SmokeFastestStep, minStack := minStack 0 1, maxStack := maxStack 0 1 }),
  (PUSH7, { execute := .makePush 7 7, constantSmoke := SmokeFastestStep, minStack := minStack 0 1, maxStack := maxStack 0 1 }),
  (PUSH8, { execute := .makePush 8 8, constantSmoke := SmokeFastestStep, minStack := minStack 0 1, maxStack := maxStack 0 1 }),
  (PUSH9, { execute := .makePush 9 9, constantSmoke := SmokeFastestStep, minStack := minStack 0 1, maxStack := maxStack 0 1 }),
  (PUSH10, { execute := .makePush 10 10, constantSmoke := SmokeFastestStep, minStack := minStack 0 1, maxStack := maxStack 0 1 }),
  (PUSH11, { execute := .makePush 11 11, constantSmoke := SmokeFastestStep, minStack := minStack 0 1, maxStack := maxStack 0 1 })]

/-- frontierEntriesC is a contiguous slice of the newFrontierInstructionSet literal, in source order. -/
def frontierEntriesC : List (Nat × Operation) := [
  (PUSH12, { execute := .makePush 12 12, constantSmoke := SmokeFastestStep, minStack := minStack 0 1, maxStack := maxStack 0 1 }),
  (PUSH13, { execute := .makePush 13 13, constantSmoke := SmokeFastestStep, minStack := minStack 0 1, maxStack := maxStack 0 1 }),
  (PUSH14, { execute := .makePush 14 14, constantSmoke := SmokeFastestStep, minStack := minStack 0 1, maxStack := maxStack 0 1 }),
  (PUSH15, { execute := .makePush 15 15, constantSmoke := SmokeFastestStep, minStack := minStack 0 1, maxStack := maxStack 0 1 }),
  (PUSH16, { execute := .makePush 16 16, constantSmoke := SmokeFastestStep, minStack := minStack 0 1, maxStack := maxStack 0 1 }),
  (PUSH17, { execute := .makePush 17 17, constantSmoke := SmokeFastestStep, minStack := minStack 0 1, maxStack := maxStack 0 1 }),
  (PUSH18, { execute := .makePush 18 18, constantSmoke := SmokeFastestStep, minStack := minStack 0 1, maxStack := maxStack 0 1 }),
  (PUSH19, { execute := .makePush 19 19, constantSmoke := SmokeFastestStep, minStack := minStack 0 1, maxStack := maxStack 0 1 }),
  (PUSH20, { execute := .makePush 20 20, constantSmoke := SmokeFastestStep, minStack := minStack 0 1, maxStack := maxStack 0 1 }),
  (PUSH21, { execute := .makePush 21 21, constantSmoke := SmokeFastestStep, minStack := minStack 0 1, maxStack := maxStack 0 1 }),
  (PUSH22, { execute := .makePush 22 22, constantSmoke := SmokeFastestStep, minStack := minStack 0 1, maxStack := maxStack 0 1 }),
  (PUSH23, { execute := .makePush 23 23, constantSmoke := SmokeFastestStep, minStack := minStack 0 1, maxStack := maxStack 0 1 }),
  (PUSH24, { execute := .makePush 24 24, constantSmoke := SmokeFastestStep, minStack := minStack 0 1, maxStack := maxStack 0 1 }),
  (PUSH25, { execute := .makePush 25 25, constantSmoke := SmokeFastestStep, minStack := minStack 0 1, maxStack := maxStack 0 1 }),
  (PUSH26, { execute := .makePush 26 26, constantSmoke := SmokeFastestStep, minStack := minStack 0 1, maxStack := maxStack 0 1 }),
  (PUSH27, { execute := .makePush 27 27, constantSmoke := SmokeFastestStep, minStack := minStack 0 1, maxStack := maxStack 0 1 }),
  (PUSH28, { execute := .makePush 28 28, constantSmoke := SmokeFastestStep, minStack := minStack 0 1, maxStack := maxStack 0 1 }),
  (PUSH29, { execute := .makePush 29 29, constantSmoke := SmokeFastestStep, minStack := minStack 0 1, maxStack := maxStack 0 1 }),
  (PUSH30, { execute := .makePush 30 30, constantSmoke := SmokeFastestStep, minStack := minStack 0 1, maxStack := maxStack 0 1 }),
  (PUSH31, { execute := .makePush 31 31, constantSmoke := SmokeFastestStep, minStack := minStack 0 1, maxStack := maxStack 0 1 }),
  (PUSH32, { execute := .makePush 32 32, constantSmoke := SmokeFastestStep, minStack := minStack 0 1, maxStack := maxStack 0 1 }),
  (DUP1, { execute := .makeDup 1, constantSmoke := SmokeFastestStep, minStack := minDupStack 1, maxStack := maxDupStack 1 }),
  (DUP2, { execute := .makeDup 2, constantSmoke := SmokeFastestStep, minStack := minDupStack 2, maxStack := maxDupStack 2 }),
  (DUP3, { execute := .makeDup 3, constantSmoke := SmokeFastestStep, minStack := minDupStack 3, maxStack := maxDupStack 3 }),
  (DUP4, { execute := .makeDup 4, constantSmoke := SmokeFastestStep, minStack := minDupStack 4, maxStack := maxDupStack 4 }),
  (DUP5, { execute := .makeDup 5, constantSmoke := SmokeFastestStep, minStack := minDupStack 5, maxStack := maxDupStack 5 }),
  (DUP6, { execute := .makeDup 6, constantSmoke := SmokeFastestStep, minStack := minDupStack 6, maxStack := maxDupStack 6 }),
  (DUP7, { execute := .makeDup 7, constantSmoke := SmokeFastestStep, minStack := minDupStack 7, maxStack := maxDupStack 7 }),
  (DUP8, { execute := .makeDup 8, constantSmoke := SmokeFastestStep, minStack := minDupStack 8, maxStack := maxDupStack 8 }),
  (DUP9, { execute := .makeDup 9, constantSmoke := SmokeFastestStep, minStack := minDupStack 9, maxStack := maxDupStack 9 }),
  (DUP10, { execute := .makeDup 10, constantSmoke := SmokeFastestStep, minStack := minDupStack 10, maxStack := maxDupStack 10 }),
  (DUP11, { execute := .makeDup 11, constantSmoke := SmokeFastestStep, minStack := minDupStack 11, maxStack := maxDupStack 11 }),
  (DUP12, { execute := .makeDup 12, constantSmoke := SmokeFastestStep, minStack := minDupStack 12, maxStack := maxDupStack 12 })]

/-- frontierEntriesD is a contiguous slice of the newFrontierInstructionSet literal, in source order. -/
def frontierEntriesD : List (Nat × Operation) := [
  (DUP13, { execute := .makeDup 13, constantSmoke := SmokeFastestStep, minStack := minDupStack 13, maxStack := maxDupStack 13 }),
  (DUP14, { execute := .makeDup 14, constantSmoke := SmokeFastestStep, minStack := minDupStack 14, maxStack := maxDupStack 14 }),
  (DUP15, { execute := .makeDup 15, constantSmoke := SmokeFastestStep, minStack := minDupStack 15, maxStack := maxDupStack 15 }),
  (DUP16, { execute := .makeDup 16, constantSmoke := SmokeFastestStep, minStack := minDupStack 16, maxStack := maxDupStack 16 }),
  (SWAP1, { execute := .makeSwap 1, constantSmoke := SmokeFastestStep, minStack := minSwapStack 2, maxStack := maxSwapStack 2 }),
  (SWAP2, { execute := .makeSwap 2, constantSmoke := SmokeFastestStep, minStack := minSwapStack 3, maxStack := maxSwapStack 3 }),
  (SWAP3, { execute := .makeSwap 3, constantSmoke := SmokeFastestStep, minStack := minSwapStack 4, maxStack := maxSwapStack 4 }),
  (SWAP4, { execute := .makeSwap 4, constantSmoke := SmokeFastestStep, minStack := minSwapStack 5, maxStack := maxSwapStack 5 }),
  (SWAP5, { execute := .makeSwap 5, constantSmoke := SmokeFastestStep, minStack := minSwapStack 6, maxStack := maxSwapStack 6 }),
  (SWAP6, { execute := .makeSwap 6, constantSmoke := SmokeFastestStep, minStack := minSwapStack 7, maxStack := maxSwapStack 7 }),
  (SWAP7, { execute := .makeSwap 7, constantSmoke := SmokeFastestStep, minStack := minSwapStack 8, maxStack := maxSwapStack 8 }),
  (SWAP8, { execute := .makeSwap 8, constantSmoke := SmokeFastestStep, minStack := minSwapStack 9, maxStack := maxSwapStack 9 }),
  (SWAP9, { execute := .makeSwap 9, constantSmoke := SmokeFastestStep, minStack := minSwapStack 10, maxStack := maxSwapStack 10 }),
  (SWAP10, { execute := .makeSwap 10, constantSmoke := SmokeFastestStep, minStack := minSwapStack 11, maxStack := maxSwapStack 11 }),
  (SWAP11, { execute := .makeSwap 11, constantSmoke := SmokeFastestStep, minStack := minSwapStack 12, maxStack := maxSwapStack 12 }),
  (SWAP12, { execute := .makeSwap 12, constantSmoke := SmokeFastestStep, minStack := minSwapStack 13, maxStack := maxSwapStack 13 }),
  (SWAP13, { execute := .makeSwap 13, constantSmoke := SmokeFastestStep, minStack := minSwapStack 14, maxStack := maxSwapStack 14 }),
  (SWAP14, { execute := .makeSwap 14, constantSmoke := SmokeFastestStep, minStack := minSwapStack 15, maxStack := maxSwapStack 15 }),
  (SWAP15, { execute := .makeSwap 15, constantSmoke := SmokeFastestStep, minStack := minSwapStack 16, maxStack := maxSwapStack 16 }),
  (SWAP16, { execute := .makeSwap 16, constantSmoke := SmokeFastestStep, minStack := minSwapStack 17, maxStack := maxSwapStack 17 }),
  (LOG0, { execute := .makeLog 0, dynamicSmoke := some (.makeSmokeLog 0), minStack := minStack 2 0, maxStack := maxStack 2 0, memorySize := some .memoryLog, writes := true }),
  (LOG1, { execute := .makeLog 1, dynamicSmoke := some (.makeSmokeLog 1), minStack := minStack 3 0, maxStack := maxStack 3 0, memorySize := some .memoryLog, writes := true }),
  (LOG2, { execute := .makeLog 2, dynamicSmoke := some (.makeSmokeLog 2), minStack := minStack 4 0, maxStack := maxStack 4 0, memorySize := some .memoryLog, writes := true }),
  (LOG3, { execute := .makeLog 3, dynamicSmoke := some (.makeSmokeLog 3), minStack := minStack 5 0, maxStack := maxStack 5 0, memorySize := some .memoryLog, writes := true }),
  (LOG4, { execute := .makeLog 4, dynamicSmoke := some (.makeSmokeLog 4), minStack := minStack 6 0, maxStack := maxStack 6 0, memorySize := some .memoryLog, writes := true }),
  (CREATE, { execute := .opCreate, constantSmoke := CreateSmoke, dynamicSmoke := some .smokeCreate, minStack := minStack 3 1, maxStack := maxStack 3 1, memorySize := some .memoryCreate, writes := true, returns := true }),
  (CALL, { execute := .opCall, constantSmoke := CallSmokeFrontier, dynamicSmoke := some .smokeCall, minStack := minStack 7 1, maxStack := maxStack 7 1, memorySize := some .memoryCall, returns := true }),
  (CALLCODE, { execute := .opCallCode, constantSmoke := CallSmokeFrontier, dynamicSmoke := some .smokeCallCode, minStack := minStack 7 1, maxStack := maxStack 7 1, memorySize := some .memoryCall, returns := true }),
  (RETURN, { execute := .opReturn, dynamicSmoke := some .smokeReturn, minStack := minStack 2 0, maxStack := maxStack 2 0, memorySize := some .memoryReturn, halts := true }),
  (SELFDESTRUCT, { execute := .opSuicide, dynamicSmoke := some .smokeSelfdestruct, minStack := minStack 1 0, maxStack := maxStack 1 0, halts := true, writes := true })]

/-- frontierEntries lists the operation literals of
newFrontierInstructionSet in source order; each entry is a table slot
together with the struct literal whose address the source stores
there (split into slices to keep elaboration cheap). -/
def frontierEntries : List (Nat × Operation) :=
  frontierEntriesA ++ frontierEntriesB ++ frontierEntriesC ++ frontierEntriesD

/-- newFrontierInstructionSet returns the frontier instructions,
allocating a fresh operation struct for every listed slot. -/
def newFrontierInstructionSet (h : Heap) : Heap × JumpTable :=
  frontierEntries.foldl
    (fun acc e =>
      let (h', p) := allocOp acc.1 e.2
      (h', setSlot acc.2 e.1 p))
    (h, [])

/-- newHomesteadInstructionSet adds DELEGATECALL to the frontier
instructions. -/
def newHomesteadInstructionSet (h : Heap) : Heap × JumpTable :=
  let (h, t) := newFrontierInstructionSet h
  let (h, p) := allocOp h
    { execute := .opDelegateCall, dynamicSmoke := some .smokeDelegateCall,
      constantSmoke := CallSmokeFrontier, minStack := minStack 6 1, maxStack := maxStack 6 1,
      memorySize := some .memoryDelegateCall, returns := true }
  (h, setSlot t DELEGATECALL p)

/-- newTangerineWhistleInstructionSet applies the EIP-150 constant-cost
repricings in place, through the pointers held in the table. -/
def newTangerineWhistleInstructionSet (h : Heap) : Heap × JumpTable :=
  let (h, t) := newHomesteadInstructionSet h
  let h := updateField h t BALANCE (fun op => { op with constantSmoke := BalanceSmokeEIP150 })
  let h := updateField h t EXTCODESIZE (fun op => { op with constantSmoke := ExtcodeSizeSmokeEIP150 })
  let h := updateField h t SLOAD (fun op => { op with constantSmoke := SloadSmokeEIP150 })
  let h := updateField h t EXTCODECOPY (fun op => { op with constantSmoke := ExtcodeCopyBaseEIP150 })
  let h := updateField h t CALL (fun op => { op with constantSmoke := CallSmokeEIP150 })
  let h := updateField h t CALLCODE (fun op => { op with constantSmoke := CallSmokeEIP150 })
  let h := updateField h t DELEGATECALL (fun op => { op with constantSmoke := CallSmokeEIP150 })
  (h, t)

/-- newSpuriousDragonInstructionSet applies the EIP-158 EXP repricing
in place. -/
def newSpuriousDragonInstructionSet (h : Heap) : Heap × JumpTable :=
  let (h, t) := newTangerineWhistleInstructionSet h
  let h := updateField h t EXP (fun op => { op with dynamicSmoke := some .smokeExpEIP158 })
  (h, t)

/-- newByzantiumInstructionSet adds STATICCALL, RETURNDATASIZE,
RETURNDATACOPY and REVERT. -/
def newByzantiumInstructionSet (h : Heap) : Heap × JumpTable :=
  let (h, t) := newSpuriousDragonInstructionSet h
  let (h, p1) := allocOp h
    { execute := .opStaticCall, constantSmoke := CallSmokeEIP150,
      dynamicSmoke := some .smokeStaticCall, minStack := minStack 6 1, maxStack := maxStack 6 1,
      memorySize := some .memoryStaticCall, returns := true }
  let t := setSlot t STATICCALL p1
  let (h, p2) := allocOp h
    { execute := .opReturnDataSize, constantSmoke := SmokeQuickStep,
      minStack := minStack 0 1, maxStack := maxStack 0 1 }
  let t := setSlot t RETURNDATASIZE p2
  let (h, p3) := allocOp h
    { execute := .opReturnDataCopy, constantSmoke := SmokeFastestStep,
      dynamicSmoke := some .smokeReturnDataCopy, minStack := minStack 3 0, maxStack := maxStack 3 0,
      memorySize := some .memoryReturnDataCopy }
  let t := setSlot t RETURNDATACOPY p3
  let (h, p4) := allocOp h
    { execute := .opRevert, dynamicSmoke := some .smokeRevert,
      minStack := minStack 2 0, maxStack := maxStack 2 0,
      memorySize := some .memoryRevert, reverts := true, returns := true }
  let t := setSlot t REVERT p4
  (h, t)

/-- newConstantinopleInstructionSet adds SHL, SHR, SAR, EXTCODEHASH and
CREATE2. -/
def newConstantinopleInstructionSet (h : Heap) : Heap × JumpTable :=
  let (h, t) := newByzantiumInstructionSet h
  let (h, p1) := allocOp h
    { execute := .opSHL, constantSmoke := SmokeFastestStep,
      minStack := minStack 2 1, maxStack := maxStack 2 1 }
  let t := setSlot t SHL p1
  let (h, p2) := allocOp h
    { execute := .opSHR, constantSmoke := SmokeFastestStep,
      minStack := minStack 2 1, maxStack := maxStack 2 1 }
  let t := setSlot t SHR p2
  let (h, p3) := allocOp h
    { execute := .opSAR, constantSmoke := SmokeFastestStep,
      minStack := minStack 2 1, maxStack := maxStack 2 1 }
  let t := setSlot t SAR p3
  let (h, p4) := allocOp h
    { execute := .opExtCodeHash, constantSmoke := ExtcodeHashSmokeConstantinople,
      minStack := minStack 1 1, maxStack := maxStack 1 1 }
  let t := setSlot t EXTCODEHASH p4
  let (h, p5) := allocOp h
    { execute := .opCreate2, constantSmoke := Create2Smoke,
      dynamicSmoke := some .smokeCreate2, minStack := minStack 4 1, maxStack := maxStack 4 1,
      memorySize := some .memoryCreate2, writes := true, returns := true }
  let t := setSlot t CREATE2 p5
  (h, t)

/-- enable1344 applies EIP-1344 (ChainID opcode). -/
def enable1344 (h : Heap) (t : JumpTable) : Heap × JumpTable :=
  let (h, p) := allocOp h
    { execute := .opChainID, constantSmoke := SmokeQuickStep,
      minStack := minStack 0 1, maxStack := maxStack 0 1 }
  (h, setSlot t CHAINID p)

/-- enable1884 applies EIP-1884: repricings of SLOAD, BALANCE and
EXTCODEHASH in place, plus the new SELFBALANCE opcode. -/
def enable1884 (h : Heap) (t : JumpTable) : Heap × JumpTable :=
  let h := updateField h t SLOAD (fun op => { op with constantSmoke := SloadSmokeEIP1884 })
  let h := updateField h t BALANCE (fun op => { op with constantSmoke := BalanceSmokeEIP1884 })
  let h := updateField h t EXTCODEHASH (fun op => { op with constantSmoke := ExtcodeHashSmokeEIP1884 })
  let (h, p) := allocOp h
    { execute := .opSelfBalance, constantSmoke := SmokeFastStep,
      minStack := minStack 0 1, maxStack := maxStack 0 1 }
  (h, setSlot t SELFBALANCE p)

/-- enable2200 applies EIP-2200 (rebalanced net-metered SSTORE) in
place. -/
def enable2200 (h : Heap) (t : JumpTable) : Heap × JumpTable :=
  let h := updateField h t SLOAD (fun op => { op with constantSmoke := SloadSmokeEIP2200 })
  let h := updateField h t SSTORE (fun op => { op with dynamicSmoke := some .smokeSStoreEIP2200 })
  (h, t)

/-- newIstanbulInstructionSet layers EIP-1344, EIP-1884 and EIP-2200 on
the Constantinople instructions. -/
def newIstanbulInstructionSet (h : Heap) : Heap × JumpTable :=
  let (h, t) := newConstantinopleInstructionSet h
  let (h, t) := enable1344 h t
  let (h, t) := enable1884 h t
  let (h, t) := enable2200 h t
  (h, t)

/-- istanbulBuiltOnce runs the Istanbul constructor chain once from an
empty heap. -/
def istanbulBuiltOnce : Heap × JumpTable := newIstanbulInstructionSet []

/-- istanbulBuiltTwice runs the Istanbul constructor chain a second
time, on the heap left by the first run, yielding both tables and the
final heap. -/
def istanbulBuiltTwice : Heap × JumpTable × JumpTable :=
  let (h1, t1) := newIstanbulInstructionSet []
  let (h2, t2) := newIstanbulInstructionSet h1
  (h2, t1, t2)

/-- tablesIdentical checks that two tables resolve to equal operations
(all fields) on every one of the 256 opcode bytes, against the given
heaps. -/
def tablesIdentical (h1 : Heap) (t1 : JumpTable) (h2 : Heap) (t2 : JumpTable) : Bool :=
  (List.range 256).all fun b => resolveOp h1 t1 b == resolveOp h2 t2 b

/-! ## Theorems -/

/-- C8: the SmokePool counter never goes negative and never wraps: for
every pool value p and amount a, SubSmoke returns an error exactly when
a exceeds p, leaving the pool unchanged in that case, and otherwise
decrements the pool by exactly a with no error. -/
theorem subSmoke_exact (p a : Nat) :
    (p < a → SubSmoke p a = (some .smokeLimitReached, p)) ∧
    (a ≤ p → SubSmoke p a = (none, p - a)) := by
  constructor
  · intro h
    simp [SubSmoke, h]
  · intro h
    simp [SubSmoke, Nat.not_lt.mpr h]

/-- Witness for subSmoke_exact at pool 3, amounts 5 and 2. -/
theorem subSmoke_exact_witness :
    SubSmoke 3 5 = (some .smokeLimitReached, 3) ∧ SubSmoke 3 2 = (none, 1) :=
  ⟨(subSmoke_exact 3 5).1 (by decide), (subSmoke_exact 3 2).2 (by decide)⟩

/-- C10: SmokePool.AddSmoke never wraps: for uint64 pool p and amount
a, it panics (returns none) exactly when p + a would exceed 2^64 - 1,
and otherwise returns the pool increased by exactly a. -/
theorem addSmoke_no_wrap (p a : Nat) (_hp : p ≤ U64MAX) (ha : a ≤ U64MAX) :
    (AddSmoke p a = none ↔ U64MAX < p + a) ∧
    (p + a ≤ U64MAX → AddSmoke p a = some (p + a)) := by
  have hmax : U64MAX = 18446744073709551615 := by norm_num [U64MAX]
  constructor
  · constructor
    · intro h
      by_contra hc
      have hle : p ≤ U64MAX - a := by omega
      simp [AddSmoke, Nat.not_lt.mpr hle] at h
    · intro h
      have hgt : U64MAX - a < p := by omega
      simp [AddSmoke, hgt]
  · intro h
    have hle : p ≤ U64MAX - a := by omega
    simp [AddSmoke, Nat.not_lt.mpr hle]

/-- Witness for addSmoke_no_wrap at pool 2^64 - 2 with amounts 3
(overflow) and 1 (exact increment). -/
theorem addSmoke_no_wrap_witness :
    (AddSmoke (2 ^ 64 - 2) 3 = none ↔ U64MAX < (2 ^ 64 - 2) + 3) ∧
    ((2 ^ 64 - 2) + 1 ≤ U64MAX → AddSmoke (2 ^ 64 - 2) 1 = some ((2 ^ 64 - 2) + 1)) :=
  ⟨(addSmoke_no_wrap (2 ^ 64 - 2) 3 (by decide) (by decide)).1,
   (addSmoke_no_wrap (2 ^ 64 - 2) 1 (by decide) (by decide)).2⟩

/-- C9: under EIP-2200, whenever the remaining smoke of the executing
contract is at or below the 2300 sentry, smokeSStoreEIP2200 fails with
an error for every storage state and every key and value operand, and
returns the state (in particular the refund counter) unchanged, never
reading current or committed storage. -/
theorem smokeSStoreEIP2200_sentry (contractSmoke : Nat) (st : SStoreDB) (key value : Nat)
    (h : contractSmoke ≤ SstoreSentrySmokeEIP2200) :
    smokeSStoreEIP2200 contractSmoke st key value = (.error .sentryReentrancy, st) := by
  unfold smokeSStoreEIP2200
  rw [if_pos h]

/-- Witness for smokeSStoreEIP2200_sentry with exactly 2300 smoke left
and an arbitrary concrete storage state. -/
theorem smokeSStoreEIP2200_sentry_witness :
    smokeSStoreEIP2200 2300 ⟨fun _ => 5, fun _ => 7, 11⟩ 1 2 =
      (.error .sentryReentrancy, ⟨fun _ => 5, fun _ => 7, 11⟩) :=
  smokeSStoreEIP2200_sentry 2300 ⟨fun _ => 5, fun _ => 7, 11⟩ 1 2 (by decide)

/-- C2: under the EIP-150 63/64 forwarding rule with available smoke a
and base cost b (b at most a, both uint64), callSmoke never returns
more than (a - b) - (a - b) / 64, and when the requested call cost is
strictly below that cap it returns exactly the requested amount with no
error. -/
theorem callSmoke_eip150_cap (a b c : Nat) (hb : b ≤ a) (ha : a ≤ U64MAX) :
    (∀ g, callSmoke true a b c = .ok g → g ≤ (a - b) - (a - b) / 64) ∧
    (c < (a - b) - (a - b) / 64 → callSmoke true a b c = .ok c) := by
  have hsub : sub64 a b = a - b := by simp [sub64, hb]
  have hcap : (a - b) - (a - b) / 64 ≤ U64MAX := by omega
  constructor
  · intro g hg
    simp only [callSmoke, if_true, hsub] at hg
    split at hg
    · cases hg
      exact le_refl _
    · cases hg
      rename_i hcond
      rw [not_or] at hcond
      exact Nat.le_of_not_lt hcond.2
  · intro hc
    have hc64 : c < 2 ^ 64 := by
      have : U64MAX < 2 ^ 64 := by norm_num [U64MAX]
      omega
    simp only [callSmoke, if_true, hsub]
    rw [if_neg]
    rw [not_or]
    exact ⟨fun h => h hc64, Nat.not_lt.mpr (Nat.le_of_lt hc)⟩

/-- Witness for callSmoke_eip150_cap: available 1000, base 100,
requested 50; the cap is 886 and exactly 50 is forwarded. -/
theorem callSmoke_eip150_cap_witness :
    callSmoke true 1000 100 50 = .ok 50 :=
  (callSmoke_eip150_cap 1000 100 50 (by decide) (by decide)).2 (by decide)

/-- C5: at refund settlement, the smoke added back to the remaining
smoke equals min(smokeUsed / 2, refund counter), where smokeUsed is the
purchased smoke minus the remaining smoke, and this amount never
exceeds smokeUsed / 2; the sender is credited with the resulting
remaining smoke at the original price and the pool grows by it. -/
theorem refundSmoke_caps_refund (initialSmoke smoke smokePrice : Nat) (w : World) (pool' : Nat)
    (h : AddSmoke w.pool (smoke + min ((initialSmoke - smoke) / 2) w.refund) = some pool') :
    refundSmoke initialSmoke smoke smokePrice w =
      some (smoke + min ((initialSmoke - smoke) / 2) w.refund,
            { w with
                balance := w.balance + (smoke + min ((initialSmoke - smoke) / 2) w.refund) * smokePrice,
                pool := pool' }) ∧
    min ((initialSmoke - smoke) / 2) w.refund ≤ (initialSmoke - smoke) / 2 := by
  refine ⟨?_, Nat.min_le_left _ _⟩
  unfold refundSmoke
  have hmin : (if (initialSmoke - smoke) / 2 > w.refund then w.refund else (initialSmoke - smoke) / 2)
      = min ((initialSmoke - smoke) / 2) w.refund := by
    rcases Nat.lt_or_ge w.refund ((initialSmoke - smoke) / 2) with hlt | hge
    · rw [if_pos hlt, Nat.min_eq_right (Nat.le_of_lt hlt)]
    · rw [if_neg (Nat.not_lt.mpr hge), Nat.min_eq_left hge]
  simp only [hmin]
  rw [h]

/-- Witness for refundSmoke_caps_refund: purchased 100, remaining 20,
price 2, balance 50, pool 10, refund counter 30; min(40, 30) = 30 is
added back. -/
theorem refundSmoke_caps_refund_witness :
    refundSmoke 100 20 2 ⟨50, 0, 10, 30⟩ =
      some (20 + min ((100 - 20) / 2) 30,
            { (⟨50, 0, 10, 30⟩ : World) with
                balance := 50 + (20 + min ((100 - 20) / 2) 30) * 2,
                pool := 60 }) ∧
    min ((100 - 20) / 2) 30 ≤ (100 - 20) / 2 :=
  refundSmoke_caps_refund 100 20 2 ⟨50, 0, 10, 30⟩ 60 (by decide)

/-- C4 counterexample: resetting a dirty slot back to its original
non-zero value while its current value is zero (original 7, current 0,
new value 7, refund counter 15000) charges 200 but leaves the refund
counter at 4800, not at 15000 + 4800 as the claim states: the source
first removes the 15000 clear refund in this sub-case. -/
theorem smokeSStore_dirty_reset_counterexample :
    smokeSStore false true 0 7 7 15000 = (NetSstoreDirtySmoke, 4800) ∧
    (4800 : Nat) ≠ 15000 + NetSstoreResetRefund := by
  constructor
  · rfl
  · decide

/-- C4 (amended): under the net-metered regime (Constantinople active,
Petersburg not active): a no-op write costs 200 with the refund counter
unchanged; the first write to a clean unset slot costs 20000 with no
refund; writing zero to a clean non-zero slot costs 5000 and adds
15000 to the refund counter; resetting a dirty slot to its original
value costs 200 and adds 4800 when the original and the current value
are both non-zero, adds 19800 when the original is zero, and when the
original is non-zero but the current value is zero it first removes the
15000 clear refund and then adds 4800. -/
theorem smokeSStore_net_metered_spec :
    (∀ current original r, smokeSStore false true current original current r
        = (NetSstoreNoopSmoke, r)) ∧
    (∀ v r, v ≠ 0 → smokeSStore false true 0 0 v r = (NetSstoreInitSmoke, r)) ∧
    (∀ current r, current ≠ 0 → smokeSStore false true current current 0 r
        = (NetSstoreCleanSmoke, r + NetSstoreClearRefund)) ∧
    (∀ current original r, original ≠ 0 → current ≠ 0 → current ≠ original →
      smokeSStore false true current original original r
        = (NetSstoreDirtySmoke, r + NetSstoreResetRefund)) ∧
    (∀ current r, current ≠ 0 → smokeSStore false true current 0 0 r
        = (NetSstoreDirtySmoke, r + NetSstoreResetClearRefund)) ∧
    (∀ original r, original ≠ 0 →
      smokeSStore false true 0 original original r
        = (NetSstoreDirtySmoke, r - NetSstoreClearRefund + NetSstoreResetRefund)) := by
  refine ⟨?_, ?_, ?_, ?_, ?_, ?_⟩
  · intro current original r
    simp [smokeSStore]
  · intro v r hv
    simp [smokeSStore, hv, Ne.symm hv]
  · intro current r hc
    simp [smokeSStore, hc]
  · intro current original r ho hc hne
    simp [smokeSStore, ho, hc, hne, Ne.symm hne]
  · intro current r hc
    simp [smokeSStore, hc, Ne.symm hc]
  · intro original r ho
    simp [smokeSStore, ho, Ne.symm ho]

/-- Witness for smokeSStore_net_metered_spec, instantiating the
clean-delete case at current 9, refund 100 and the dirty-reset case at
current 3, original 7, refund 100. -/
theorem smokeSStore_net_metered_spec_witness :
    smokeSStore false true 9 9 0 100 = (NetSstoreCleanSmoke, 100 + NetSstoreClearRefund) ∧
    smokeSStore false true 3 7 7 100 = (NetSstoreDirtySmoke, 100 + NetSstoreResetRefund) :=
  ⟨smokeSStore_net_metered_spec.2.2.1 9 100 (by decide),
   smokeSStore_net_metered_spec.2.2.2.1 3 7 100 (by decide) (by decide) (by decide)⟩

/-- intrinsicSmokeSpec states the formula of the claim for the intrinsic
cost: a base of 21000, raised to 53000 exactly for a contract creation
under Homestead, plus 4 per zero data byte plus 68 per non-zero data
byte (16 instead of 68 under EIP-2028).  This definition follows the
words of the specification and is compared against the source
function IntrinsicSmoke. -/
def intrinsicSmokeSpec (data : List Nat) (contractCreation isHomestead isEIP2028 : Bool) : Nat :=
  (if contractCreation && isHomestead then TxSmokeContractCreation else TxSmoke)
    + (data.filter (fun b => b ≠ 0)).length *
        (if isEIP2028 then TxDataNonZeroSmokeEIP2028 else TxDataNonZeroSmokeFrontier)
    + (data.filter (fun b => b = 0)).length * TxDataZeroSmoke

/-- measureFilterSplit: every byte is either zero or non-zero, so the
two filter lengths sum to the data length. -/
theorem measureFilterSplit (data : List Nat) :
    (data.filter (fun b => b ≠ 0)).length + (data.filter (fun b => b = 0)).length
      = data.length := by
  induction data with
  | nil => rfl
  | cons b rest ih =>
    by_cases hb : b = 0 <;> simp [List.filter, hb] at ih ⊢ <;> omega

/-- overflowGuardExact: the source guard (M - s) / c < n detects
exactly the sums s + n * c that exceed M, for s at most M and positive
c. -/
theorem overflowGuardExact (s c n M : Nat) (hs : s ≤ M) (hc : 0 < c) :
    ((M - s) / c < n ↔ M < s + n * c) := by
  rw [Nat.div_lt_iff_lt_mul hc]
  constructor <;> intro h <;> omega

/-- C6: IntrinsicSmoke equals the formula of the claim whenever that sum
fits a uint64 and returns the distinguished overflow error otherwise;
in particular a plain transfer with no data under pre-Homestead rules
costs exactly the 21000 base constant. -/
theorem intrinsicSmoke_matches_spec :
    (∀ data contractCreation isHomestead isEIP2028,
      IntrinsicSmoke data contractCreation isHomestead isEIP2028 =
        if intrinsicSmokeSpec data contractCreation isHomestead isEIP2028 ≤ U64MAX then
          .ok (intrinsicSmokeSpec data contractCreation isHomestead isEIP2028)
        else .error .smokeUintOverflow) ∧
    IntrinsicSmoke [] false false false = .ok TxSmoke := by
  constructor
  · intro data cc hs e28
    set base := if cc && hs then TxSmokeContractCreation else TxSmoke with hbase
    have hbaseM : base ≤ U64MAX := by
      rw [hbase]
      split <;> norm_num [TxSmokeContractCreation, TxSmoke, U64MAX]
    set nz := (data.filter (fun b => b ≠ 0)).length with hnz
    set zc := (data.filter (fun b => b = 0)).length with hzc
    have hsplit : nz + zc = data.length := measureFilterSplit data
    set c := if e28 then TxDataNonZeroSmokeEIP2028 else TxDataNonZeroSmokeFrontier with hc
    have hcpos : 0 < c := by
      rw [hc]
      split <;> norm_num [TxDataNonZeroSmokeEIP2028, TxDataNonZeroSmokeFrontier]
    have hspec : intrinsicSmokeSpec data cc hs e28 = base + nz * c + zc * TxDataZeroSmoke := by
      rw [intrinsicSmokeSpec, hbase, hnz, hzc, hc]
    rw [IntrinsicSmoke, ← hbase, ← hnz, ← hc, hspec]
    by_cases hd : data.length > 0
    · rw [if_pos hd]
      by_cases hg1 : (U64MAX - base) / c < nz
      · rw [if_pos hg1]
        have : U64MAX < base + nz * c := (overflowGuardExact base c nz U64MAX hbaseM hcpos).mp hg1
        rw [if_neg]
        omega
      · rw [if_neg hg1]
        have h1 : base + nz * c ≤ U64MAX := by
          have := (overflowGuardExact base c nz U64MAX hbaseM hcpos).not.mp hg1
          omega
        have hz' : data.length - nz = zc := by omega
        rw [hz']
        by_cases hg2 : (U64MAX - (base + nz * c)) / TxDataZeroSmoke < zc
        · rw [if_pos hg2]
          have : U64MAX < base + nz * c + zc * TxDataZeroSmoke :=
            (overflowGuardExact (base + nz * c) TxDataZeroSmoke zc U64MAX h1 (by norm_num [TxDataZeroSmoke])).mp hg2
          rw [if_neg]
          omega
        · rw [if_neg hg2]
          have : ¬ U64MAX < base + nz * c + zc * TxDataZeroSmoke :=
            (overflowGuardExact (base + nz * c) TxDataZeroSmoke zc U64MAX h1 (by norm_num [TxDataZeroSmoke])).not.mp hg2
          rw [if_pos]
          omega
    · rw [if_neg hd]
      have hlen : data = [] := List.length_eq_zero.mp (by omega)
      subst hlen
      simp only [hnz, hzc, List.filter_nil, List.length_nil] at *
      rw [if_pos]
      · simp
      · simpa using hbaseM
  · rfl

/-- memInv relates a Memory to the word count it has been charged for:
the buffer holds exactly 32 * w bytes and lastSmokeCost is the total
fee at w words.  A fresh frame satisfies it with w = 0, and every
successful expansion preserves it. -/
def memInv (m : Memory) (w : Nat) : Prop :=
  m.len = 32 * w ∧ m.lastSmokeCost = memCost w

/-- memCost_mono: the total memory fee is monotone in the word
count. -/
theorem memCost_mono {w w' : Nat} (h : w ≤ w') : memCost w ≤ memCost w' := by
  unfold memCost
  have h1 : w * MemorySmoke ≤ w' * MemorySmoke := Nat.mul_le_mul_right _ h
  have h2 : w * w / QuadCoeffDiv ≤ w' * w' / QuadCoeffDiv :=
    Nat.div_le_div_right (Nat.mul_le_mul h h)
  omega

/-- expandStep_eq computes one expansion step in closed form: from a
memory charged for w words, a request of s bytes (within the overflow
guard) charges memCost (max w (toWordSize s)) - memCost w and leaves
the memory charged for max w (toWordSize s) words. -/
theorem expandStep_eq (m : Memory) (w s : Nat) (hw : memInv m w) (hs : s ≤ 0x1FFFFFFFE0) :
    expandStep m s =
      .ok (memCost (max w (toWordSize s)) - memCost w,
           ⟨32 * max w (toWordSize s), memCost (max w (toWordSize s))⟩) := by
  obtain ⟨hlen, hcost⟩ := hw
  cases m with
  | mk len last =>
  simp only at hlen hcost
  subst hlen
  subst hcost
  by_cases h0 : s = 0
  · subst h0
    have htw : toWordSize 0 = 0 := rfl
    have hmax : max w (toWordSize 0) = w := by rw [htw]; exact Nat.max_eq_left (Nat.zero_le w)
    rw [hmax, Nat.sub_self]
    simp [expandStep, memorySmokeCost, toWordSize]
  · have hns : ¬ s > 0x1FFFFFFFE0 := Nat.not_lt.mpr hs
    rw [expandStep, memorySmokeCost, if_neg h0, if_neg hns]
    by_cases hgrow : w < toWordSize s
    · have hmax : max w (toWordSize s) = toWordSize s := Nat.max_eq_right (Nat.le_of_lt hgrow)
      have hmono : memCost w ≤ memCost (toWordSize s) := memCost_mono (Nat.le_of_lt hgrow)
      have hgt : toWordSize s * 32 > (Memory.mk (32 * w) (memCost w)).len := by
        simp only
        omega
      rw [if_pos hgt, hmax]
      have hfee : sub64 (toWordSize s * MemorySmoke + toWordSize s * toWordSize s / QuadCoeffDiv)
          (Memory.mk (32 * w) (memCost w)).lastSmokeCost = memCost (toWordSize s) - memCost w := by
        simp only
        rw [sub64, if_pos (show memCost w ≤
          toWordSize s * MemorySmoke + toWordSize s * toWordSize s / QuadCoeffDiv from hmono)]
        rfl
      have hlenmax : max (Memory.mk (32 * w) (memCost w)).len (toWordSize s * 32)
          = 32 * toWordSize s := by
        simp only
        rw [Nat.max_eq_right (by omega), Nat.mul_comm]
      simp only [hfee, hlenmax]
      rfl
    · have hwge : toWordSize s ≤ w := Nat.not_lt.mp hgrow
      have hmax : max w (toWordSize s) = w := Nat.max_eq_left hwge
      have hng : ¬ toWordSize s * 32 > (Memory.mk (32 * w) (memCost w)).len := by
        simp only
        omega
      rw [if_neg hng, hmax, Nat.sub_self]
      have hlenmax : max (Memory.mk (32 * w) (memCost w)).len (toWordSize s * 32)
          = 32 * w := by
        simp only
        exact Nat.max_eq_left (by omega)
      simp only [hlenmax]

/-- wordFold accumulates the word count reached after a sequence of
expansion requests, starting from a memory charged for w words. -/
def wordFold (w : Nat) (sizes : List Nat) : Nat :=
  sizes.foldl (fun acc s => max acc (toWordSize s)) w

/-- wordFold_le: the accumulated word count never drops below the
starting word count. -/
theorem wordFold_le (sizes : List Nat) : ∀ w, w ≤ wordFold w sizes := by
  induction sizes with
  | nil => intro w; exact Nat.le_refl w
  | cons s rest ih =>
    intro w
    exact Nat.le_trans (Nat.le_max_left w (toWordSize s)) (ih (max w (toWordSize s)))

/-- runExpansions_eq computes a whole expansion sequence in closed
form: from a memory charged for w words, the cumulative fee is
memCost (wordFold w sizes) - memCost w and the final memory is charged
for wordFold w sizes words. -/
theorem runExpansions_eq (sizes : List Nat) : ∀ m w, memInv m w →
    (∀ s ∈ sizes, s ≤ 0x1FFFFFFFE0) →
    runExpansions m sizes =
      .ok (memCost (wordFold w sizes) - memCost w,
           ⟨32 * wordFold w sizes, memCost (wordFold w sizes)⟩) := by
  induction sizes with
  | nil =>
    intro m w hw _
    obtain ⟨hlen, hcost⟩ := hw
    cases m with
    | mk len last =>
    simp only at hlen hcost
    subst hlen
    subst hcost
    simp [runExpansions, wordFold]
  | cons s rest ih =>
    intro m w hw hb
    have hs : s ≤ 0x1FFFFFFFE0 := hb s (List.mem_cons_self s rest)
    have hrest : ∀ x ∈ rest, x ≤ 0x1FFFFFFFE0 := fun x hx => hb x (List.mem_cons_of_mem s hx)
    rw [runExpansions, expandStep_eq m w s hw hs]
    set w1 := max w (toWordSize s) with hw1
    have hinv1 : memInv ⟨32 * w1, memCost w1⟩ w1 := ⟨rfl, rfl⟩
    simp only [ih ⟨32 * w1, memCost w1⟩ w1 hinv1 hrest]
    have hfold : wordFold w (s :: rest) = wordFold w1 rest := rfl
    rw [hfold]
    have h1 : memCost w ≤ memCost w1 := memCost_mono (Nat.le_max_left _ _)
    have h2 : memCost w1 ≤ memCost (wordFold w1 rest) := memCost_mono (wordFold_le rest w1)
    have hsum : memCost w1 - memCost w + (memCost (wordFold w1 rest) - memCost w1)
        = memCost (wordFold w1 rest) - memCost w := by omega
    rw [hsum]

/-- C3: within one call frame, the cumulative smoke charged by a
sequence of successful memory expansions equals the total cost of the
final word count, cost(w) = 3*w + w*w/512; expanding to size A and
then to size B with A < B charges the same as expanding once to B, and
a request that does not exceed the current (word-aligned) size charges
nothing and changes nothing. -/
theorem memory_charge_delta :
    (∀ sizes, (∀ s ∈ sizes, s ≤ 0x1FFFFFFFE0) →
      ∀ total m, runExpansions ⟨0, 0⟩ sizes = .ok (total, m) →
        total = memCost (m.len / 32)) ∧
    (∀ A B, A ≤ 0x1FFFFFFFE0 → B ≤ 0x1FFFFFFFE0 → A < B →
      runExpansions ⟨0, 0⟩ [A, B] = runExpansions ⟨0, 0⟩ [B]) ∧
    (∀ m w s, memInv m w → s ≤ m.len → s ≤ 0x1FFFFFFFE0 →
      memorySmokeCost m s = .ok (0, m)) := by
  have hinv0 : memInv ⟨0, 0⟩ 0 := ⟨rfl, rfl⟩
  refine ⟨?_, ?_, ?_⟩
  · intro sizes hb total m hrun
    rw [runExpansions_eq sizes ⟨0, 0⟩ 0 hinv0 hb] at hrun
    have hc0 : memCost 0 = 0 := rfl
    rw [hc0, Nat.sub_zero] at hrun
    injection hrun with hp
    injection hp with ht hm
    have hdiv : (32 : Nat) * wordFold 0 sizes / 32 = wordFold 0 sizes :=
      Nat.mul_div_cancel_left _ (by norm_num)
    simp only [← ht, ← hm, hdiv]
  · intro A B hA hB hAB
    rw [runExpansions_eq [A, B] ⟨0, 0⟩ 0 hinv0 (by
        intro x hx
        simp only [List.mem_cons, List.mem_singleton] at hx
        rcases hx with rfl | rfl | hfalse
        · omega
        · omega
        · cases hfalse),
      runExpansions_eq [B] ⟨0, 0⟩ 0 hinv0 (by
        intro x hx
        simp only [List.mem_singleton] at hx
        subst hx
        omega)]
    have htw : toWordSize A ≤ toWordSize B := Nat.div_le_div_right (by omega)
    have hfold : wordFold 0 [A, B] = wordFold 0 [B] := by
      simp only [wordFold, List.foldl]
      rw [Nat.max_comm 0 (toWordSize A), Nat.max_eq_left (Nat.zero_le _)]
      rw [Nat.max_comm 0 (toWordSize B), Nat.max_eq_left (Nat.zero_le _)]
      exact Nat.max_eq_right htw
    rw [hfold]
  · intro m w s hw hsl hsb
    obtain ⟨hlen, hcost⟩ := hw
    cases m with
    | mk len last =>
    simp only at hlen hcost
    subst hlen
    subst hcost
    by_cases h0 : s = 0
    · subst h0
      rfl
    · have hns : ¬ s > 0x1FFFFFFFE0 := Nat.not_lt.mpr hsb
      rw [memorySmokeCost, if_neg h0, if_neg hns]
      have hng : ¬ toWordSize s * 32 > (Memory.mk (32 * w) (memCost w)).len := by
        simp only [toWordSize]
        simp only at hsl
        omega
      rw [if_neg hng]

/-- Witness for memory_charge_delta: the sequence [10, 100] from a
fresh frame charges 12 = memCost 4 in total; charging 10 then 100
equals charging 100 once; a request of 33 bytes against a memory of 64
bytes already charged for 2 words costs nothing. -/
theorem memory_charge_delta_witness :
    (12 : Nat) = memCost ((⟨128, 12⟩ : Memory).len / 32) ∧
    runExpansions ⟨0, 0⟩ [10, 100] = runExpansions ⟨0, 0⟩ [100] ∧
    memorySmokeCost ⟨64, 6⟩ 33 = .ok (0, ⟨64, 6⟩) :=
  ⟨memory_charge_delta.1 [10, 100] (by decide) 12 ⟨128, 12⟩ (by rfl),
   memory_charge_delta.2.1 10 100 (by decide) (by decide) (by decide),
   memory_charge_delta.2.2 ⟨64, 6⟩ 2 33 ⟨by decide, by decide⟩ (by decide) (by decide)⟩

/-- C1 counterexample: a message with smoke limit 10, price 1, no data
and a sufficient balance passes the nonce and buy-smoke steps (balance
100 debited to 90, pool 50 decremented to 40) and is then rejected for
intrinsic smoke (21000 > 10); TransitionDb returns the non-nil error
with the sender balance and the pool still debited, refuting the claim
that every pre-dispatch rejection leaves them unchanged. -/
theorem transitionDbPre_counterexample :
    transitionDbPre false false ⟨false, 0, 10, 1, 0, [], false⟩ ⟨100, 0, 50, 0⟩ =
      (.error .intrinsicSmoke, ⟨90, 0, 40, 0⟩, 10, 10) ∧
    (⟨90, 0, 40, 0⟩ : World) ≠ ⟨100, 0, 50, 0⟩ := by
  constructor
  · rfl
  · decide

/-- buySmoke_cases: buySmoke either rejects (insufficient funds or
pool shortfall) leaving the world untouched, or succeeds debiting the
balance by smokeLimit * smokePrice, decrementing the pool by
smokeLimit, and setting both smoke counters to the smoke limit. -/
theorem buySmoke_cases (msg : Msg) (w : World) (res : Except SmokeErr Unit) (w1 : World)
    (s1 i1 : Nat) (h : buySmoke msg w = (res, w1, s1, i1)) :
    (∃ e, res = .error e ∧ w1 = w ∧ (e = .insufficientFunds ∨ e = .smokeLimitReached)) ∨
    (res = .ok () ∧
      w1 = { w with balance := w.balance - msg.smoke * msg.smokePrice,
                    pool := w.pool - msg.smoke } ∧
      s1 = msg.smoke ∧ i1 = msg.smoke) := by
  unfold buySmoke SubSmoke at h
  by_cases hbal : w.balance < msg.smoke * msg.smokePrice
  · rw [if_pos hbal] at h
    simp only [Prod.mk.injEq] at h
    exact Or.inl ⟨.insufficientFunds, h.1.symm, h.2.1.symm, Or.inl rfl⟩
  · rw [if_neg hbal] at h
    by_cases hpool : w.pool < msg.smoke
    · rw [if_pos hpool] at h
      simp only [Prod.mk.injEq] at h
      exact Or.inl ⟨.smokeLimitReached, h.1.symm, h.2.1.symm, Or.inr rfl⟩
    · rw [if_neg hpool] at h
      simp only [Prod.mk.injEq] at h
      exact Or.inr ⟨h.1.symm, h.2.1.symm, h.2.2.1.symm, h.2.2.2.symm⟩

/-- preCheck_cases: preCheck either rejects (nonce mismatch,
insufficient funds or pool shortfall) leaving the world untouched, or
succeeds with the smoke bought. -/
theorem preCheck_cases (msg : Msg) (w : World) (res : Except SmokeErr Unit) (w1 : World)
    (s1 i1 : Nat) (h : preCheck msg w = (res, w1, s1, i1)) :
    (∃ e, res = .error e ∧ w1 = w ∧
      (e = .nonceTooHigh ∨ e = .nonceTooLow ∨ e = .insufficientFunds ∨
        e = .smokeLimitReached)) ∨
    (res = .ok () ∧
      w1 = { w with balance := w.balance - msg.smoke * msg.smokePrice,
                    pool := w.pool - msg.smoke } ∧
      s1 = msg.smoke ∧ i1 = msg.smoke) := by
  have hlift : (∃ e, res = .error e ∧ w1 = w ∧
      (e = .insufficientFunds ∨ e = .smokeLimitReached)) ∨
      (res = .ok () ∧
        w1 = { w with balance := w.balance - msg.smoke * msg.smokePrice,
                      pool := w.pool - msg.smoke } ∧
        s1 = msg.smoke ∧ i1 = msg.smoke) →
      (∃ e, res = .error e ∧ w1 = w ∧
        (e = .nonceTooHigh ∨ e = .nonceTooLow ∨ e = .insufficientFunds ∨
          e = .smokeLimitReached)) ∨
      (res = .ok () ∧
        w1 = { w with balance := w.balance - msg.smoke * msg.smokePrice,
                      pool := w.pool - msg.smoke } ∧
        s1 = msg.smoke ∧ i1 = msg.smoke) := by
    rintro (⟨e, he, hw, hm | hm⟩ | hok)
    · exact Or.inl ⟨e, he, hw, Or.inr (Or.inr (Or.inl hm))⟩
    · exact Or.inl ⟨e, he, hw, Or.inr (Or.inr (Or.inr hm))⟩
    · exact Or.inr hok
  unfold preCheck at h
  by_cases hcn : msg.checkNonce
  · rw [if_pos hcn] at h
    by_cases h1 : w.nonce < msg.nonce
    · rw [if_pos h1] at h
      simp only [Prod.mk.injEq] at h
      exact Or.inl ⟨.nonceTooHigh, h.1.symm, h.2.1.symm, Or.inl rfl⟩
    · rw [if_neg h1] at h
      by_cases h2 : w.nonce > msg.nonce
      · rw [if_pos h2] at h
        simp only [Prod.mk.injEq] at h
        exact Or.inl ⟨.nonceTooLow, h.1.symm, h.2.1.symm, Or.inr (Or.inl rfl)⟩
      · rw [if_neg h2] at h
        exact hlift (buySmoke_cases msg w res w1 s1 i1 h)
  · rw [if_neg hcn] at h
    exact hlift (buySmoke_cases msg w res w1 s1 i1 h)

/-- intrinsicSmoke_error_kind: the only error IntrinsicSmoke produces
is the distinguished overflow error. -/
theorem intrinsicSmoke_error_kind (data : List Nat) (cc hs e28 : Bool) (e : SmokeErr)
    (h : IntrinsicSmoke data cc hs e28 = .error e) : e = .smokeUintOverflow := by
  unfold IntrinsicSmoke at h
  dsimp only at h
  split_ifs at h <;> injection h with h <;> exact h.symm

/-- C1 (amended): a rejection in the nonce check or in the smoke
purchase (insufficient balance for smoke, pool shortfall) leaves the
world unchanged, but a rejection after the purchase (intrinsic-smoke
overflow or shortfall, insufficient balance for value) returns with the
smoke already bought: the sender balance debited by smokeLimit times
smokePrice and the pool decremented by smokeLimit.  The sender nonce is
unchanged on every rejection. -/
theorem transitionDbPre_error_state (homestead istanbul : Bool) (msg : Msg) (w : World)
    (e : SmokeErr) (w' : World) (s i : Nat)
    (h : transitionDbPre homestead istanbul msg w = (.error e, w', s, i)) :
    w'.nonce = w.nonce ∧
    ((e = .nonceTooHigh ∨ e = .nonceTooLow ∨ e = .insufficientFunds ∨
        e = .smokeLimitReached) → w' = w) ∧
    ((e = .smokeUintOverflow ∨ e = .intrinsicSmoke ∨ e = .insufficientFundsForTransfer) →
      w' = { w with
               balance := w.balance - msg.smoke * msg.smokePrice,
               pool := w.pool - msg.smoke }) := by
  unfold transitionDbPre at h
  rcases hpc : preCheck msg w with ⟨res, w1, s1, i1⟩
  rw [hpc] at h
  have hpre := preCheck_cases msg w res w1 s1 i1 hpc
  cases res with
  | error e0 =>
    simp only [Prod.mk.injEq, Except.error.injEq] at h
    obtain ⟨he, hw, _, _⟩ := h
    subst he
    rcases hpre with ⟨e1, he1, hww, hmem⟩ | ⟨hok, _⟩
    · injection he1 with he1
      subst he1
      subst hww
      subst hw
      refine ⟨rfl, fun _ => rfl, fun hbad => ?_⟩
      rcases hmem with rfl | rfl | rfl | rfl <;>
        rcases hbad with h2 | h2 | h2 <;> exact absurd h2 (by decide)
    · cases hok
  | ok u =>
    cases u
    rcases hpre with ⟨e1, he1, _, _⟩ | ⟨_, hww, hs1, _⟩
    · cases he1
    dsimp only at h
    rcases hig : IntrinsicSmoke msg.data msg.toIsNil homestead istanbul with e2 | g
    · rw [hig] at h
      dsimp only at h
      simp only [Prod.mk.injEq, Except.error.injEq] at h
      obtain ⟨he, hw, _, _⟩ := h
      have he2 := intrinsicSmoke_error_kind _ _ _ _ _ hig
      subst he
      subst he2
      subst hw
      subst hww
      refine ⟨rfl, fun hbad => ?_, fun _ => rfl⟩
      rcases hbad with h2 | h2 | h2 | h2 <;> exact absurd h2 (by decide)
    · rw [hig] at h
      dsimp only at h
      by_cases hlow : s1 < g
      · rw [if_pos hlow] at h
        simp only [Prod.mk.injEq, Except.error.injEq] at h
        obtain ⟨he, hw, _, _⟩ := h
        subst he
        subst hw
        subst hww
        refine ⟨rfl, fun hbad => ?_, fun _ => rfl⟩
        rcases hbad with h2 | h2 | h2 | h2 <;> exact absurd h2 (by decide)
      · rw [if_neg hlow] at h
        by_cases hval : (decide (0 < msg.value) && !CanTransfer w1.balance msg.value) = true
        · rw [if_pos hval] at h
          simp only [Prod.mk.injEq, Except.error.injEq] at h
          obtain ⟨he, hw, _, _⟩ := h
          subst he
          subst hw
          subst hww
          refine ⟨rfl, fun hbad => ?_, fun _ => rfl⟩
          rcases hbad with h2 | h2 | h2 | h2 <;> exact absurd h2 (by decide)
        · rw [if_neg hval] at h
          simp only [Prod.mk.injEq] at h
          cases h.1

/-- Witness for transitionDbPre_error_state at the intrinsic-smoke
rejection of the counterexample message. -/
theorem transitionDbPre_error_state_witness :
    ((⟨90, 0, 40, 0⟩ : World)).nonce = ((⟨100, 0, 50, 0⟩ : World)).nonce ∧
    ((SmokeErr.intrinsicSmoke = .nonceTooHigh ∨ SmokeErr.intrinsicSmoke = .nonceTooLow ∨
        SmokeErr.intrinsicSmoke = .insufficientFunds ∨
        SmokeErr.intrinsicSmoke = .smokeLimitReached) →
      (⟨90, 0, 40, 0⟩ : World) = ⟨100, 0, 50, 0⟩) ∧
    ((SmokeErr.intrinsicSmoke = .smokeUintOverflow ∨ SmokeErr.intrinsicSmoke = .intrinsicSmoke ∨
        SmokeErr.intrinsicSmoke = .insufficientFundsForTransfer) →
      (⟨90, 0, 40, 0⟩ : World) =
        { (⟨100, 0, 50, 0⟩ : World) with
            balance := 100 - (⟨false, 0, 10, 1, 0, [], false⟩ : Msg).smoke *
              (⟨false, 0, 10, 1, 0, [], false⟩ : Msg).smokePrice,
            pool := 50 - (⟨false, 0, 10, 1, 0, [], false⟩ : Msg).smoke }) :=
  transitionDbPre_error_state false false ⟨false, 0, 10, 1, 0, [], false⟩ ⟨100, 0, 50, 0⟩
    .intrinsicSmoke ⟨90, 0, 40, 0⟩ 10 10 (by rfl)

/-- C7: building the Istanbul jump table twice by running the full
constructor chain (each run starting from a freshly allocated Frontier
table) yields identical Operation tables, every one of the 256 slots
resolving to an operation with equal execute function, constant cost,
dynamic-cost function, stack bounds, memory-size function and flags
(or to no operation in both); and the second build does not mutate any
operation denoted by the table of the first build, since each run allocates
fresh operation structs and writes only through its own pointers. -/
theorem istanbul_rebuild_identical :
    (let (h2, t1, t2) := istanbulBuiltTwice
     tablesIdentical h2 t1 h2 t2) = true ∧
    (let (h1, t1) := istanbulBuiltOnce
     let (h2, t1b, _) := istanbulBuiltTwice
     tablesIdentical h1 t1 h2 t1b) = true :=
  ⟨by decide, by decide⟩

end Spec2Proof
